import Mathlib

/-!
Verification of the A2A request handler in
`src/mastra/agents/planner-agent.ts` (the `a2aAgentRoute` handler).

The handler receives a JSON-RPC 2.0 request, validates the envelope, the
method, the agent lookup and the message shape, translates the message
parts into a single role/content pair, invokes the agent, and assembles an
A2A "task" response (status / artifacts / history).  We embed the handler
as a pure Lean function; the sources of nondeterminism of the original
code (`randomUUID`, `new Date().toISOString()`, the agent call, the agent
registry) become explicit parameters.
-/

/-- JSON values, as manipulated by the handler (`JSON.stringify`,
`part.data`, tool results). Numbers are modelled as integers. -/
inductive Json where
  | null : Json
  | bool (b : Bool) : Json
  | num (n : Int) : Json
  | str (s : String) : Json
  | arr (items : List Json) : Json
  | obj (fields : List (String × Json)) : Json
deriving Repr

/-- Escaping of one character inside a JSON string literal, as
`JSON.stringify` does it for the common characters. -/
def escapeChar (c : Char) : String :=
  if c = '"' then "\\\""
  else if c = '\\' then "\\\\"
  else if c = '\n' then "\\n"
  else if c = '\t' then "\\t"
  else if c = '\r' then "\\r"
  else String.singleton c

/-- A JSON string literal: quotes around the escaped characters. -/
def quoteString (s : String) : String :=
  "\"" ++ String.join (s.data.map escapeChar) ++ "\""

mutual

/-- `JSON.stringify` (no spacing), as used on `part.data` in the handler. -/
def Json.stringify : Json → String
  | .null => "null"
  | .bool b => if b then "true" else "false"
  | .num n => toString n
  | .str s => quoteString s
  | .arr items => "[" ++ stringifyItems items ++ "]"
  | .obj fields => "\x7b" ++ stringifyFields fields ++ "\x7d"

/-- Comma-separated serialization of array elements. -/
def stringifyItems : List Json → String
  | [] => ""
  | [x] => Json.stringify x
  | x :: xs => Json.stringify x ++ "," ++ stringifyItems xs

/-- Comma-separated serialization of object fields. -/
def stringifyFields : List (String × Json) → String
  | [] => ""
  | [(k, v)] => quoteString k ++ ":" ++ Json.stringify v
  | (k, v) :: fs =>
      quoteString k ++ ":" ++ Json.stringify v ++ "," ++ stringifyFields fs

end

/-- JavaScript truthiness of a JSON value (`null`, `false`, `0` and `""`
are falsy; arrays and objects are always truthy). -/
def jsTruthy : Json → Bool
  | .null => false
  | .bool b => b
  | .num n => n != 0
  | .str s => s != ""
  | .arr _ => true
  | .obj _ => true

/-- Field access `o.k` on a JSON value: the first field named `k` of an
object, `null` (standing for `undefined`, equally falsy) otherwise. -/
def getField (j : Json) (k : String) : Json :=
  match j with
  | .obj fields =>
      match fields.find? (fun p => p.1 == k) with
      | some p => p.2
      | none => .null
  | _ => .null

/-- JavaScript truthiness of an optional string (`undefined` and `""` are
falsy). Used for `message.taskId || ...`, `!requestId`, `!message.role`. -/
def strTruthy : Option String → Bool
  | none => false
  | some s => s != ""

/-- `v || ""` on an optional string: `undefined` and `""` both give `""`. -/
def jsStrOrEmpty : Option String → String
  | none => ""
  | some s => s

/-- `s || d` on strings: only `""` is falsy. -/
def jsOrStr (s d : String) : String :=
  if s = "" then d else s

/-- A message part.  The handler keys on `part.kind`: `"text"` parts
contribute their text, `"data"` parts their serialized payload, any other
kind contributes the empty string (`other` records the unknown kind). -/
inductive MsgPart where
  | text (text : String) : MsgPart
  | data (data : Json) : MsgPart
  | other (kind : String) : MsgPart
deriving Repr

/-- Contribution of one part to the agent content, from the `.map` at
lines 140-144 of the handler. -/
def partContribution : MsgPart → String
  | .text t => t
  | .data d => Json.stringify d
  | .other _ => ""

/-- The `content` field of the Mastra message (lines 138-145):
map each part to its contribution, join with `"\n"`, then `|| ""`. -/
def mastraContent (parts : List MsgPart) : String :=
  jsOrStr (String.intercalate "\n" (parts.map partContribution)) ""

/-- The inbound A2A message (`params.message`). Optional fields model
absent JSON fields; `role` is optional because the handler only checks
its truthiness. -/
structure InboundMessage where
  kind : String
  role : Option String
  parts : Option (List MsgPart)
  messageId : Option String
  taskId : Option String
  contextId : Option String
deriving Repr

/-- `params.configuration` (only logged on the non-blocking branch;
it never affects the returned value). -/
structure Configuration where
  blocking : Option Bool
  pushUrl : Option String
deriving Repr

/-- `params` of the JSON-RPC request. -/
structure RpcParams where
  message : Option InboundMessage
  configuration : Option Configuration
deriving Repr

/-- A parsed JSON-RPC request body. -/
structure RpcRequest where
  jsonrpc : String
  id : Option String
  method : String
  params : Option RpcParams
deriving Repr

/-- The single role/content message handed to `agent.generate`. -/
structure MastraMessage where
  role : String
  content : String
deriving Repr, DecidableEq

/-- The agent's response: a primary text and optional tool results
(each tool result is an arbitrary JSON value). -/
structure AgentResponse where
  text : Option String
  toolResults : Option (List Json)
deriving Repr

/-- An invokable agent: `generate` on a single message, which may throw
(modelled by `Except`, the error being the thrown `error.message`). -/
def AgentFn : Type := MastraMessage → Except String AgentResponse

/-- One artifact of the response (lines 158-167). `name` is JSON-valued
because `result.name` is an arbitrary field of the raw tool result. -/
structure Artifact where
  artifactId : String
  name : Json
  parts : List MsgPart
deriving Repr

/-- A message as it appears in the response (`history` entries and
`status.message`; the latter carries no `taskId`). -/
structure OutMessage where
  kind : String
  role : String
  parts : List MsgPart
  messageId : String
  taskId : Option String
deriving Repr

/-- `result.status` of a successful response. -/
structure TaskStatus where
  state : String
  timestamp : String
  message : OutMessage
deriving Repr

/-- `result` of a successful response (lines 198-219). -/
structure TaskResult where
  id : String
  contextId : String
  status : TaskStatus
  artifacts : List Artifact
  history : List OutMessage
  kind : String
deriving Repr

/-- A JSON-RPC error object (`code`, `message`, optional
`data.details`). -/
structure RpcError where
  code : Int
  message : String
  details : Option String
deriving Repr

/-- The result-or-error alternative of a JSON-RPC response. -/
inductive RpcOutcome where
  | success (result : TaskResult) : RpcOutcome
  | failure (err : RpcError) : RpcOutcome
deriving Repr

/-- A JSON-RPC response body (`id` is `null` when `none`). -/
structure RpcResponse where
  jsonrpc : String
  id : Option String
  outcome : RpcOutcome
deriving Repr

/-- What `c.json(body, status)` returns: an HTTP status code and a
JSON-RPC body. -/
structure HttpResponse where
  status : Nat
  body : RpcResponse
deriving Repr

/-- `v || randomUUID()` with an explicit UUID supply `uuid` and counter
`n`: the supplied value when truthy, otherwise the next fresh UUID
(advancing the counter, since `randomUUID()` is only evaluated then). -/
def jsOrFresh (v : Option String) (uuid : Nat → String) (n : Nat) :
    String × Nat :=
  match v with
  | some s => if s = "" then (uuid n, n + 1) else (s, n)
  | none => (uuid n, n + 1)

/-- `result.name || "ToolResult"` (line 160) on a raw tool result. -/
def artifactName (result : Json) : Json :=
  if jsTruthy (getField result "name") then getField result "name"
  else .str "ToolResult"

/-- The `forEach` loop of lines 156-168: one artifact per tool result,
each with the next fresh UUID as `artifactId` (the counter `n` advances
by one per result), the defaulted name, and a single `data` part
wrapping the raw result. -/
def buildArtifacts (uuid : Nat → String) :
    List Json → Nat → List Artifact
  | [], _ => []
  | r :: rs, n =>
      ⟨uuid n, artifactName r, [.data r]⟩ :: buildArtifacts uuid rs (n + 1)

/-- The guard `response.toolResults && response.toolResults.length > 0`
(line 156): the list of tool results the loop actually runs over. -/
def effectiveToolResults (resp : AgentResponse) : List Json :=
  match resp.toolResults with
  | some rs => if rs.length > 0 then rs else []
  | none => []

/-- Assembly of the successful `result` object (lines 132-219), with the
UUID counter threaded in source evaluation order: `currentTaskId`
(line 132), `conversationContext` (line 133), `responseMessageId`
(line 151), one per artifact (line 159), then the first history entry's
`messageId` (line 177). -/
def mkResult (uuid : Nat → String) (now : String) (m : InboundMessage)
    (role : String) (parts : List MsgPart) (resp : AgentResponse) :
    TaskResult :=
  let currentTaskId := (jsOrFresh m.taskId uuid 0).1
  let n1 := (jsOrFresh m.taskId uuid 0).2
  let conversationContext := (jsOrFresh m.contextId uuid n1).1
  let n2 := (jsOrFresh m.contextId uuid n1).2
  let agentText := jsStrOrEmpty resp.text
  let responseMessageId := uuid n2
  let artifacts := buildArtifacts uuid (effectiveToolResults resp) (n2 + 1)
  let n3 := n2 + 1 + (effectiveToolResults resp).length
  let inboundMessageId := (jsOrFresh m.messageId uuid n3).1
  { id := currentTaskId
    contextId := conversationContext
    status :=
      { state := "completed"
        timestamp := now
        message :=
          { kind := "message"
            role := "agent"
            parts := [.text agentText]
            messageId := responseMessageId
            taskId := none } }
    artifacts := artifacts
    history :=
      [ { kind := "message"
          role := role
          parts := parts
          messageId := inboundMessageId
          taskId := some currentTaskId },
        { kind := "message"
          role := "agent"
          parts := [.text agentText]
          messageId := responseMessageId
          taskId := some currentTaskId } ]
    kind := "task" }

/-- `const { message } = params || {}` (line 99): the inbound message,
when `params` is present and carries one. -/
def paramsMessage : Option RpcParams → Option InboundMessage
  | some p => p.message
  | none => none

/-- The `c.json({... error ...}, status)` shape shared by all error
returns. -/
def errorResponse (status : Nat) (id : Option String) (code : Int)
    (message : String) (details : Option String) : HttpResponse :=
  ⟨status, ⟨"2.0", id, .failure ⟨code, message, details⟩⟩⟩

/-- The invalid-message rejection of lines 117-130. -/
def invalidMessageResponse (id : Option String) : HttpResponse :=
  errorResponse 400 id (-32602)
    "Invalid message: must have kind \"message\", role, and parts array"
    none

/-- The full `a2aAgentRoute` handler (lines 43-255).

* `agents` — the registry behind `mastra.getAgent`;
* `uuid` — the stream of values `randomUUID()` returns, in call order;
* `now` — the value of `new Date().toISOString()`;
* `agentId` — the `:agentId` path parameter;
* `body` — the parsed request body, or `.error msg` when
  `c.req.json()` throws a parse error with that message.

A thrown error anywhere (parse failure, `agent.generate` rejection) is
caught by the top-level `catch`, which answers HTTP 500 with code
`-32603` and the error message in `error.data.details`, with `id` equal
to `requestId` (still `null` if the body never parsed). -/
def handleA2A (agents : String → Option AgentFn) (uuid : Nat → String)
    (now : String) (agentId : String)
    (body : Except String RpcRequest) : HttpResponse :=
  match body with
  | .error e => errorResponse 500 none (-32603) "Internal error" (some e)
  | .ok req =>
    let requestId := req.id
    if req.jsonrpc != "2.0" || !strTruthy requestId then
      errorResponse 400 (if strTruthy requestId then requestId else none)
        (-32600) "Invalid Request: jsonrpc must be \"2.0\" and id is required"
        none
    else if req.method != "message/send" then
      errorResponse 400 requestId (-32601)
        ("Invalid method: expected \"message/send\", got \"" ++ req.method
          ++ "\"") none
    else
      match agents agentId with
      | none =>
          errorResponse 404 requestId (-32602)
            ("Agent \x27" ++ agentId ++ "\x27 not found") none
      | some gen =>
        match paramsMessage req.params with
        | none =>
            errorResponse 400 requestId (-32602)
              "Invalid params: message is required" none
        | some m =>
          match m.role, m.parts with
          | some role, some parts =>
            if m.kind != "message" || role == "" then
              invalidMessageResponse requestId
            else
              match gen ⟨role, mastraContent parts⟩ with
              | .error e =>
                  errorResponse 500 requestId (-32603) "Internal error"
                    (some e)
              | .ok resp =>
                  ⟨200, ⟨"2.0", requestId,
                    .success (mkResult uuid now m role parts resp)⟩⟩
          | _, _ => invalidMessageResponse requestId

/-- Rendering of a response `id`: `null` when absent. -/
def renderId : Option String → Json
  | none => .null
  | some s => .str s

/-- Rendering of a message part back to JSON. -/
def msgPartToJson : MsgPart → Json
  | .text t => .obj [("kind", .str "text"), ("text", .str t)]
  | .data d => .obj [("kind", .str "data"), ("data", d)]
  | .other k => .obj [("kind", .str k)]

/-- Rendering of a history / status message to JSON. -/
def outMessageToJson (m : OutMessage) : Json :=
  .obj ([("kind", .str m.kind), ("role", .str m.role),
         ("parts", .arr (m.parts.map msgPartToJson)),
         ("messageId", .str m.messageId)] ++
    (match m.taskId with
     | some t => [("taskId", .str t)]
     | none => []))

/-- Rendering of an artifact to JSON. -/
def artifactToJson (a : Artifact) : Json :=
  .obj [("artifactId", .str a.artifactId), ("name", a.name),
        ("parts", .arr (a.parts.map msgPartToJson))]

/-- Rendering of `result.status` to JSON. -/
def taskStatusToJson (s : TaskStatus) : Json :=
  .obj [("state", .str s.state), ("timestamp", .str s.timestamp),
        ("message", outMessageToJson s.message)]

/-- Rendering of the `result` object to JSON. -/
def taskResultToJson (r : TaskResult) : Json :=
  .obj [("id", .str r.id), ("contextId", .str r.contextId),
        ("status", taskStatusToJson r.status),
        ("artifacts", .arr (r.artifacts.map artifactToJson)),
        ("history", .arr (r.history.map outMessageToJson)),
        ("kind", .str r.kind)]

/-- Rendering of a JSON-RPC error object, with `data.details` when
present. -/
def rpcErrorToJson (e : RpcError) : Json :=
  .obj ([("code", .num e.code), ("message", .str e.message)] ++
    (match e.details with
     | some d => [("data", .obj [("details", .str d)])]
     | none => []))

/-- Rendering of the whole JSON-RPC response body. -/
def rpcResponseToJson (r : RpcResponse) : Json :=
  .obj ([("jsonrpc", .str r.jsonrpc), ("id", renderId r.id)] ++
    (match r.outcome with
     | .success res => [("result", taskResultToJson res)]
     | .failure e => [("error", rpcErrorToJson e)]))

/-- Does a JSON object carry a field named `k`? -/
def hasField (j : Json) (k : String) : Bool :=
  match j with
  | .obj fields => fields.any (fun p => p.1 == k)
  | _ => false

/-- A well-formed JSON-RPC response body: an object whose `jsonrpc`
field is the string `"2.0"`, carrying an `id` field and exactly one of
`result` / `error`. -/
def wellFormedRpc (j : Json) : Bool :=
  (match getField j "jsonrpc" with
   | .str s => s == "2.0"
   | _ => false) &&
  hasField j "id" &&
  (hasField j "result" ^^ hasField j "error")

/-- The conjunction of every validation check of the handler: requests
failing it never reach the `agent.generate` call. -/
def requestAccepted (req : RpcRequest) : Bool :=
  req.jsonrpc == "2.0" && strTruthy req.id &&
  req.method == "message/send" &&
  (match paramsMessage req.params with
   | some m => m.kind == "message" && strTruthy m.role && m.parts.isSome
   | none => false)

/-- The `result` payload of a response, when it is a success. -/
def resultOf (r : HttpResponse) : Option TaskResult :=
  match r.body.outcome with
  | .success res => some res
  | .failure _ => none

/-! Concrete data used to instantiate the theorems below on closed
inputs. -/

/-- The two example parts of the spec: a text part and a data part. -/
def sampleParts : List MsgPart := [.text "a", .data (.obj [("x", .num 1)])]

/-- A fully-populated valid inbound message. -/
def sampleMsg : InboundMessage :=
  ⟨"message", some "user", some sampleParts, some "m1", some "T1", some "C1"⟩

/-- A valid JSON-RPC request carrying `sampleMsg`. -/
def sampleReq : RpcRequest :=
  ⟨"2.0", some "req-1", "message/send", some ⟨some sampleMsg, none⟩⟩

/-- An agent response with one tool result. -/
def sampleResp : AgentResponse :=
  ⟨some "hello", some [.obj [("name", .str "calc"), ("v", .num 2)]]⟩

/-- An agent that always answers `sampleResp`. -/
def sampleAgent : AgentFn := fun _ => .ok sampleResp

/-- A registry resolving only the id `"planner"`, to `sampleAgent`. -/
def sampleReg : String → Option AgentFn :=
  fun s => if s = "planner" then some sampleAgent else none

/-- A deterministic UUID supply (`n ↦ "u"`, `"uu"`, ...): injective and
never empty. -/
def sampleUuid : Nat → String := fun n => String.mk (List.replicate (n + 1) 'u')

/-- An agent whose `generate` call always throws. -/
def failAgent : AgentFn := fun _ => .error "boom"

/-- A registry resolving only `"planner"`, to the throwing agent. -/
def failReg : String → Option AgentFn :=
  fun s => if s = "planner" then some failAgent else none

/-- A request with a bad JSON-RPC version (fails envelope validation). -/
def badReq : RpcRequest := ⟨"1.0", some "r", "message/send", none⟩

/-- A message that supplies `taskId` explicitly as the empty string. -/
def emptyTaskIdMsg : InboundMessage :=
  ⟨"message", some "user", some sampleParts, some "m1", some "", some "C1"⟩

/-- Request carrying `emptyTaskIdMsg`. -/
def emptyTaskIdReq : RpcRequest :=
  ⟨"2.0", some "req-4", "message/send", some ⟨some emptyTaskIdMsg, none⟩⟩

/-- A message whose `parts` is an empty (but present) sequence. -/
def emptyPartsMsg : InboundMessage :=
  ⟨"message", some "user", some [], none, none, none⟩

/-- Request carrying `emptyPartsMsg`. -/
def emptyPartsReq : RpcRequest :=
  ⟨"2.0", some "req-5", "message/send", some ⟨some emptyPartsMsg, none⟩⟩

/-- A message lacking the `parts` field altogether. -/
def noPartsMsg : InboundMessage :=
  ⟨"message", some "user", none, none, none, none⟩

/-- Request carrying `noPartsMsg`. -/
def noPartsReq : RpcRequest :=
  ⟨"2.0", some "req-5w", "message/send", some ⟨some noPartsMsg, none⟩⟩

/-- A message whose `taskId`, `contextId` and `messageId` are all the
empty string. -/
def allFalsyIdsMsg : InboundMessage :=
  ⟨"message", some "user", some sampleParts, some "", some "", some ""⟩

/-- Request carrying `allFalsyIdsMsg`. -/
def allFalsyIdsReq : RpcRequest :=
  ⟨"2.0", some "req-10", "message/send", some ⟨some allFalsyIdsMsg, none⟩⟩

/-- A constant UUID supply, visibly different from any caller value. -/
def freshConstUuid : Nat → String := fun _ => "fresh-id"

theorem jsOrStr_empty_right (s : String) : jsOrStr s "" = s := by
  unfold jsOrStr
  split <;> simp_all

theorem mastraContent_eq_join (ps : List MsgPart) :
    mastraContent ps = String.intercalate "\n" (ps.map partContribution) := by
  unfold mastraContent
  exact jsOrStr_empty_right _

theorem buildArtifacts_length (uuid : Nat → String) (rs : List Json)
    (n : Nat) : (buildArtifacts uuid rs n).length = rs.length := by
  induction rs generalizing n with
  | nil => rfl
  | cons r rs ih => simp [buildArtifacts, ih]

theorem buildArtifacts_map_name (uuid : Nat → String) (rs : List Json)
    (n : Nat) :
    (buildArtifacts uuid rs n).map Artifact.name = rs.map artifactName := by
  induction rs generalizing n with
  | nil => rfl
  | cons r rs ih => simp [buildArtifacts, ih]

theorem buildArtifacts_map_parts (uuid : Nat → String) (rs : List Json)
    (n : Nat) :
    (buildArtifacts uuid rs n).map Artifact.parts
      = rs.map (fun r => [MsgPart.data r]) := by
  induction rs generalizing n with
  | nil => rfl
  | cons r rs ih => simp [buildArtifacts, ih]

theorem buildArtifacts_map_artifactId (uuid : Nat → String)
    (rs : List Json) (n : Nat) :
    (buildArtifacts uuid rs n).map Artifact.artifactId
      = (List.range rs.length).map (fun i => uuid (n + i)) := by
  induction rs generalizing n with
  | nil => rfl
  | cons r rs ih =>
    have hfun : (fun i => uuid (n + 1 + i)) = (fun i => uuid (n + (i + 1))) := by
      funext i
      exact congrArg uuid (by omega)
    simp [buildArtifacts, ih, List.range_succ_eq_map, List.map_map,
      Function.comp_def, hfun]

theorem buildArtifacts_id_nodup (uuid : Nat → String) (rs : List Json)
    (n : Nat) (huuid : Function.Injective uuid) :
    ((buildArtifacts uuid rs n).map Artifact.artifactId).Nodup := by
  rw [buildArtifacts_map_artifactId]
  refine List.Nodup.map ?_ (List.nodup_range _)
  intro a b hab
  have := huuid hab
  omega

theorem handleA2A_success (agents : String → Option AgentFn)
    (uuid : Nat → String) (now aid : String) (req : RpcRequest)
    (gen : AgentFn) (m : InboundMessage) (role : String)
    (parts : List MsgPart) (resp : AgentResponse)
    (hag : agents aid = some gen)
    (hj : req.jsonrpc = "2.0") (hid : strTruthy req.id = true)
    (hmeth : req.method = "message/send")
    (hm : paramsMessage req.params = some m)
    (hkind : m.kind = "message") (hrole : m.role = some role)
    (hrole2 : role ≠ "") (hparts : m.parts = some parts)
    (hgen : gen ⟨role, mastraContent parts⟩ = .ok resp) :
    handleA2A agents uuid now aid (.ok req) =
      ⟨200, ⟨"2.0", req.id, .success (mkResult uuid now m role parts resp)⟩⟩ := by
  unfold handleA2A
  simp [hag, hj, hid, hmeth, hm, hkind, hrole, hparts, hrole2, hgen]

theorem handleA2A_cases (agents : String → Option AgentFn)
    (uuid : Nat → String) (now aid : String)
    (body : Except String RpcRequest) :
    (∃ s id c msg d, handleA2A agents uuid now aid body
        = errorResponse s id c msg d ∧ (s = 400 ∨ s = 404 ∨ s = 500)) ∨
    (∃ id m role parts resp, handleA2A agents uuid now aid body
        = ⟨200, ⟨"2.0", id, .success (mkResult uuid now m role parts resp)⟩⟩) := by
  cases body with
  | error e =>
    exact Or.inl ⟨500, none, _, _, _, rfl, Or.inr (Or.inr rfl)⟩
  | ok req =>
    simp only [handleA2A]
    split
    · exact Or.inl ⟨400, _, _, _, _, rfl, Or.inl rfl⟩
    split
    · exact Or.inl ⟨400, _, _, _, _, rfl, Or.inl rfl⟩
    split
    · exact Or.inl ⟨404, _, _, _, _, rfl, Or.inr (Or.inl rfl)⟩
    split
    · exact Or.inl ⟨400, _, _, _, _, rfl, Or.inl rfl⟩
    split
    · split
      · exact Or.inl ⟨400, _, _, _, _, rfl, Or.inl rfl⟩
      split
      · exact Or.inl ⟨500, _, _, _, _, rfl, Or.inr (Or.inr rfl)⟩
      · exact Or.inr ⟨_, _, _, _, _, rfl⟩
    · exact Or.inl ⟨400, _, _, _, _, rfl, Or.inl rfl⟩

theorem wellFormedRpc_render (r : RpcResponse) (hj : r.jsonrpc = "2.0") :
    wellFormedRpc (rpcResponseToJson r) = true := by
  obtain ⟨j, id, outcome⟩ := r
  subst hj
  cases outcome with
  | success res => cases id <;> rfl
  | failure e =>
    obtain ⟨c, msg, d⟩ := e
    cases id <;> cases d <;> rfl

/-- C1: for every accepted request, the content string passed to the
agent equals the message's parts mapped in order (a text part contributes
its text, a data part the JSON serialization of its payload, any other
kind the empty string) joined by a newline: the handler's output depends
on the agent only through its value at that content; on the example parts
`[text "a", data (x:1)]` the content is `"a\n\x7b"x":1\x7d"`, and an empty
join is legal and becomes empty-string content. -/
theorem c1_content_joined_parts
    (uuid : Nat → String) (now aid : String) (req : RpcRequest)
    (m : InboundMessage) (role : String) (parts : List MsgPart)
    (g1 g2 : AgentFn)
    (hm : paramsMessage req.params = some m)
    (hrole : m.role = some role) (hparts : m.parts = some parts)
    (hagree : g1 ⟨role, String.intercalate "\n" (parts.map partContribution)⟩
        = g2 ⟨role, String.intercalate "\n" (parts.map partContribution)⟩) :
    handleA2A (fun s => if s = aid then some g1 else none) uuid now aid
        (.ok req)
      = handleA2A (fun s => if s = aid then some g2 else none) uuid now aid
        (.ok req) ∧
    mastraContent parts
      = String.intercalate "\n" (parts.map partContribution) ∧
    mastraContent [.text "a", .data (.obj [("x", .num 1)])]
      = "a\n\x7b\"x\":1\x7d" ∧
    mastraContent [] = "" := by
  refine ⟨?_, mastraContent_eq_join _, by decide, rfl⟩
  unfold handleA2A
  simp [hm, hrole, hparts, mastraContent_eq_join, hagree]

theorem c1_content_joined_parts_witness :
    mastraContent sampleParts = "a\n\x7b\"x\":1\x7d" ∧
    mastraContent [] = "" := by
  have h := c1_content_joined_parts sampleUuid "T0" "planner" sampleReq
    sampleMsg "user" sampleParts sampleAgent sampleAgent rfl rfl rfl rfl
  exact ⟨h.2.2.1, h.2.2.2⟩

/-- C2: every successful response's `result.history` is exactly two
entries, in order: the inbound message re-emitted with its own
`messageId` (a fresh UUID when the supplied one is absent or falsy) and
the resolved `taskId`; then a new agent-authored message with a fresh
`messageId`, role `"agent"`, a single text part holding the agent's
reply text (empty string if none), and the same `taskId`. -/
theorem c2_history_two_entries (agents : String → Option AgentFn)
    (uuid : Nat → String) (now aid : String) (req : RpcRequest)
    (gen : AgentFn) (m : InboundMessage) (role : String)
    (parts : List MsgPart) (resp : AgentResponse)
    (hag : agents aid = some gen)
    (hj : req.jsonrpc = "2.0") (hid : strTruthy req.id = true)
    (hmeth : req.method = "message/send")
    (hm : paramsMessage req.params = some m)
    (hkind : m.kind = "message") (hrole : m.role = some role)
    (hrole2 : role ≠ "") (hparts : m.parts = some parts)
    (hgen : gen ⟨role, mastraContent parts⟩ = .ok resp) :
    ∃ histId respMid : String,
      handleA2A agents uuid now aid (.ok req) =
        ⟨200, ⟨"2.0", req.id,
          .success (mkResult uuid now m role parts resp)⟩⟩ ∧
      (mkResult uuid now m role parts resp).history =
        [ ⟨"message", role, parts, histId,
            some (mkResult uuid now m role parts resp).id⟩,
          ⟨"message", "agent", [.text (jsStrOrEmpty resp.text)], respMid,
            some (mkResult uuid now m role parts resp).id⟩ ] ∧
      (∃ k, respMid = uuid k) ∧
      (∀ t, m.messageId = some t → t ≠ "" → histId = t) ∧
      ((m.messageId = none ∨ m.messageId = some "") →
        ∃ k, histId = uuid k) := by
  refine ⟨(jsOrFresh m.messageId uuid
      ((jsOrFresh m.contextId uuid (jsOrFresh m.taskId uuid 0).2).2 + 1 +
        (effectiveToolResults resp).length)).1,
    uuid (jsOrFresh m.contextId uuid (jsOrFresh m.taskId uuid 0).2).2,
    handleA2A_success agents uuid now aid req gen m role parts resp hag hj
      hid hmeth hm hkind hrole hrole2 hparts hgen,
    ?_, ⟨_, rfl⟩, ?_, ?_⟩
  · simp [mkResult]
  · intro t ht hne
    simp [jsOrFresh, ht, hne]
  · intro hcase
    rcases hcase with h | h <;> simp [jsOrFresh, h]

theorem c2_history_two_entries_witness :
    (mkResult sampleUuid "T0" sampleMsg "user" sampleParts
      sampleResp).history.length = 2 := by
  obtain ⟨histId, respMid, hshape, hhist, hrest⟩ :=
    c2_history_two_entries sampleReg sampleUuid "T0" "planner" sampleReq
      sampleAgent sampleMsg "user" sampleParts sampleResp rfl rfl rfl rfl
      rfl rfl rfl (by decide) rfl rfl
  rw [hhist]
  rfl

/-- C3: for every successful response, the artifacts are exactly one per
tool-invocation result of the agent's response, in order, each with the
next fresh UUID as `artifactId` (pairwise distinct when the UUID supply
is injective), the tool result's (truthy) `name` field or
`"ToolResult"`, and a single data-kind part wrapping the raw result;
with no tool results, `artifacts` is empty yet the `artifacts` field is
still present in the rendered result. -/
theorem c3_artifacts_per_tool_result (agents : String → Option AgentFn)
    (uuid : Nat → String) (now aid : String) (req : RpcRequest)
    (gen : AgentFn) (m : InboundMessage) (role : String)
    (parts : List MsgPart) (resp : AgentResponse)
    (hag : agents aid = some gen)
    (hj : req.jsonrpc = "2.0") (hid : strTruthy req.id = true)
    (hmeth : req.method = "message/send")
    (hm : paramsMessage req.params = some m)
    (hkind : m.kind = "message") (hrole : m.role = some role)
    (hrole2 : role ≠ "") (hparts : m.parts = some parts)
    (hgen : gen ⟨role, mastraContent parts⟩ = .ok resp) :
    ∃ res : TaskResult,
      handleA2A agents uuid now aid (.ok req) =
        ⟨200, ⟨"2.0", req.id, .success res⟩⟩ ∧
      res.artifacts.length = (effectiveToolResults resp).length ∧
      ((resp.toolResults = none ∨ resp.toolResults = some []) →
        res.artifacts = []) ∧
      (∀ rs, resp.toolResults = some rs →
        res.artifacts.length = rs.length) ∧
      res.artifacts.map Artifact.name
        = (effectiveToolResults resp).map artifactName ∧
      res.artifacts.map Artifact.parts
        = (effectiveToolResults resp).map (fun r => [MsgPart.data r]) ∧
      (∃ k0, res.artifacts.map Artifact.artifactId
        = (List.range (effectiveToolResults resp).length).map
            (fun i => uuid (k0 + i))) ∧
      (Function.Injective uuid →
        (res.artifacts.map Artifact.artifactId).Nodup) ∧
      hasField (taskResultToJson res) "artifacts" = true := by
  refine ⟨mkResult uuid now m role parts resp,
    handleA2A_success agents uuid now aid req gen m role parts resp hag hj
      hid hmeth hm hkind hrole hrole2 hparts hgen, ?_⟩
  have hart : (mkResult uuid now m role parts resp).artifacts
      = buildArtifacts uuid (effectiveToolResults resp)
          ((jsOrFresh m.contextId uuid (jsOrFresh m.taskId uuid 0).2).2 + 1) := by
    simp [mkResult]
  rw [hart]
  refine ⟨buildArtifacts_length _ _ _, ?_, ?_,
    buildArtifacts_map_name _ _ _, buildArtifacts_map_parts _ _ _,
    ⟨_, buildArtifacts_map_artifactId _ _ _⟩,
    fun hinj => buildArtifacts_id_nodup _ _ _ hinj, ?_⟩
  · intro hcase
    rcases hcase with h | h <;> simp [effectiveToolResults, h, buildArtifacts]
  · intro rs hrs
    rw [buildArtifacts_length]
    simp only [effectiveToolResults, hrs]
    split <;> simp_all
  · simp [taskResultToJson, hasField]

theorem c3_artifacts_per_tool_result_witness :
    (resultOf (handleA2A sampleReg sampleUuid "T0" "planner"
        (.ok sampleReq))).map (fun r => r.artifacts.length) = some 1 := by
  obtain ⟨res, hshape, hlen, hrest⟩ :=
    c3_artifacts_per_tool_result sampleReg sampleUuid "T0" "planner"
      sampleReq sampleAgent sampleMsg "user" sampleParts sampleResp rfl rfl
      rfl rfl rfl rfl rfl (by decide) rfl rfl
  rw [hshape]
  simp [resultOf, hlen]
  rfl

/-- C4 counterexample: the request `emptyTaskIdReq` supplies
`message.taskId` explicitly (as the empty string), yet the successful
response does not echo it: `result.id` is the freshly generated UUID,
because the source uses `||`, not `??`.  (`contextId`, being truthy, is
echoed.) -/
theorem c4_id_echo_counterexample :
    emptyTaskIdMsg.taskId = some "" ∧
    (resultOf (handleA2A sampleReg freshConstUuid "T0" "planner"
        (.ok emptyTaskIdReq))).map TaskResult.id = some "fresh-id" ∧
    (resultOf (handleA2A sampleReg freshConstUuid "T0" "planner"
        (.ok emptyTaskIdReq))).map TaskResult.contextId = some "C1" ∧
    ("fresh-id" : String) ≠ "" := by
  exact ⟨rfl, rfl, rfl, by decide⟩

/-- C4 (amended): for every valid request supplying non-empty
`message.taskId` and `message.contextId`, the successful response echoes
them verbatim as `result.id` and `result.contextId`; when either is
absent or empty (falsy), a fresh UUID is generated for it instead:
`taskId = truthy(message.taskId) ? message.taskId : freshUUID()`, and
likewise for `contextId`. -/
theorem c4_id_echo_amended (agents : String → Option AgentFn)
    (uuid : Nat → String) (now aid : String) (req : RpcRequest)
    (gen : AgentFn) (m : InboundMessage) (role : String)
    (parts : List MsgPart) (resp : AgentResponse)
    (hag : agents aid = some gen)
    (hj : req.jsonrpc = "2.0") (hid : strTruthy req.id = true)
    (hmeth : req.method = "message/send")
    (hm : paramsMessage req.params = some m)
    (hkind : m.kind = "message") (hrole : m.role = some role)
    (hrole2 : role ≠ "") (hparts : m.parts = some parts)
    (hgen : gen ⟨role, mastraContent parts⟩ = .ok resp) :
    ∃ res : TaskResult,
      handleA2A agents uuid now aid (.ok req) =
        ⟨200, ⟨"2.0", req.id, .success res⟩⟩ ∧
      (∀ t, m.taskId = some t → t ≠ "" → res.id = t) ∧
      (∀ c, m.contextId = some c → c ≠ "" → res.contextId = c) ∧
      ((m.taskId = none ∨ m.taskId = some "") → res.id = uuid 0) ∧
      ((m.contextId = none ∨ m.contextId = some "") →
        ∃ k, k ≤ 1 ∧ res.contextId = uuid k) := by
  refine ⟨mkResult uuid now m role parts resp,
    handleA2A_success agents uuid now aid req gen m role parts resp hag hj
      hid hmeth hm hkind hrole hrole2 hparts hgen, ?_, ?_, ?_, ?_⟩
  · intro t ht hne
    simp [mkResult, jsOrFresh, ht, hne]
  · intro c hc hne
    simp [mkResult, jsOrFresh, hc, hne]
  · intro hcase
    rcases hcase with hc | hc <;> simp [mkResult, jsOrFresh, hc]
  · intro hcase
    refine ⟨(jsOrFresh m.taskId uuid 0).2, ?_, ?_⟩
    · rcases m.taskId with _ | t
      · simp [jsOrFresh]
      · by_cases ht : t = "" <;> simp [jsOrFresh, ht]
    · rcases hcase with hc | hc <;> simp [mkResult, jsOrFresh, hc]

theorem c4_id_echo_amended_witness :
    (resultOf (handleA2A sampleReg sampleUuid "T0" "planner"
        (.ok sampleReq))).map TaskResult.id = some "T1" := by
  obtain ⟨res, hshape, hecho, hrest⟩ :=
    c4_id_echo_amended sampleReg sampleUuid "T0" "planner" sampleReq
      sampleAgent sampleMsg "user" sampleParts sampleResp rfl rfl rfl rfl
      rfl rfl rfl (by decide) rfl rfl
  rw [hshape]
  simp [resultOf]
  exact hecho "T1" rfl (by decide)

/-- C5 counterexample: a message whose `parts` is an empty (but present)
sequence is accepted, not rejected: the source's check `!message.parts`
is false for an empty array (arrays are truthy in JavaScript), so
`emptyPartsReq` yields HTTP 200 with a success result. -/
theorem c5_validation_counterexample :
    emptyPartsMsg.parts = some [] ∧
    (handleA2A sampleReg sampleUuid "T0" "planner"
        (.ok emptyPartsReq)).status = 200 ∧
    (resultOf (handleA2A sampleReg sampleUuid "T0" "planner"
        (.ok emptyPartsReq))).isSome = true := by
  exact ⟨rfl, rfl, rfl⟩

/-- C5 (amended): a request whose `params.message` is absent, or whose
`message.kind` is not `"message"`, or which lacks a (truthy) role, or
whose `parts` field is absent, is rejected with JSON-RPC error code
-32602 and HTTP 400; a message carrying an empty but present `parts`
sequence is accepted (the check only requires `parts` to be present) and
produces a success with empty-string content. -/
theorem c5_validation_amended (agents : String → Option AgentFn)
    (uuid : Nat → String) (now aid : String) (req : RpcRequest)
    (gen : AgentFn)
    (hag : agents aid = some gen)
    (hj : req.jsonrpc = "2.0") (hid : strTruthy req.id = true)
    (hmeth : req.method = "message/send") :
    (paramsMessage req.params = none →
      handleA2A agents uuid now aid (.ok req)
        = errorResponse 400 req.id (-32602)
            "Invalid params: message is required" none) ∧
    (∀ m, paramsMessage req.params = some m →
      (m.kind ≠ "message" ∨ m.role = none ∨ m.role = some "" ∨
        m.parts = none) →
      handleA2A agents uuid now aid (.ok req)
        = invalidMessageResponse req.id) ∧
    (∀ m role resp, paramsMessage req.params = some m →
      m.kind = "message" → m.role = some role → role ≠ "" →
      m.parts = some [] → gen ⟨role, ""⟩ = .ok resp →
      (handleA2A agents uuid now aid (.ok req)).status = 200) := by
  refine ⟨?_, ?_, ?_⟩
  · intro h
    simp only [handleA2A]
    simp [hag, hj, hid, hmeth, h]
  · intro m hm hbad
    simp only [handleA2A]
    rcases hbad with h | h | h | h
    · cases hr : m.role <;> cases hp : m.parts <;>
        simp [hag, hj, hid, hmeth, hm, hr, hp, h]
    · cases hp : m.parts <;> simp [hag, hj, hid, hmeth, hm, h, hp]
    · cases hp : m.parts <;> simp [hag, hj, hid, hmeth, hm, h, hp]
    · cases hr : m.role <;> simp [hag, hj, hid, hmeth, hm, h, hr]
  · intro m role resp hm hkind hrole hrole2 hparts hgen
    have hg : gen ⟨role, mastraContent ([] : List MsgPart)⟩ = .ok resp := by
      have he : mastraContent ([] : List MsgPart) = "" := rfl
      rw [he]
      exact hgen
    rw [handleA2A_success agents uuid now aid req gen m role [] resp hag hj
      hid hmeth hm hkind hrole hrole2 hparts hg]

theorem c5_validation_amended_witness :
    handleA2A sampleReg sampleUuid "T0" "planner" (.ok noPartsReq)
      = invalidMessageResponse (some "req-5w") := by
  obtain ⟨hmiss, hinvalid, haccept⟩ :=
    c5_validation_amended sampleReg sampleUuid "T0" "planner" noPartsReq
      sampleAgent rfl rfl rfl rfl
  exact hinvalid noPartsMsg rfl (Or.inr (Or.inr (Or.inr rfl)))

/-- C6: an uncaught failure of the agent invocation yields HTTP 500 with
code -32603 and the failure's message in `error.data.details`, the
response `id` being the parsed request `id`; a body that never parsed
yields the same 500 shape with `id` null, carrying the parse error's
message in `details`. -/
theorem c6_internal_error (agents : String → Option AgentFn)
    (uuid : Nat → String) (now aid : String) (req : RpcRequest)
    (gen : AgentFn) (m : InboundMessage) (role : String)
    (parts : List MsgPart) (e : String)
    (hag : agents aid = some gen)
    (hj : req.jsonrpc = "2.0") (hid : strTruthy req.id = true)
    (hmeth : req.method = "message/send")
    (hm : paramsMessage req.params = some m)
    (hkind : m.kind = "message") (hrole : m.role = some role)
    (hrole2 : role ≠ "") (hparts : m.parts = some parts)
    (hgen : gen ⟨role, mastraContent parts⟩ = .error e) :
    handleA2A agents uuid now aid (.ok req)
      = errorResponse 500 req.id (-32603) "Internal error" (some e) ∧
    (∀ e2, handleA2A agents uuid now aid (.error e2)
      = errorResponse 500 none (-32603) "Internal error" (some e2)) ∧
    getField (getField
        (rpcErrorToJson ⟨-32603, "Internal error", some e⟩) "data")
        "details"
      = .str e := by
  refine ⟨?_, fun e2 => rfl, rfl⟩
  simp only [handleA2A]
  simp [hag, hj, hid, hmeth, hm, hkind, hrole, hparts, hrole2, hgen]

theorem c6_internal_error_witness :
    (handleA2A failReg sampleUuid "T0" "planner" (.ok sampleReq)).status
      = 500 ∧
    handleA2A failReg sampleUuid "T0" "planner" (.ok sampleReq)
      = errorResponse 500 (some "req-1") (-32603) "Internal error"
          (some "boom") := by
  have h :=
    c6_internal_error failReg sampleUuid "T0" "planner" sampleReq failAgent
      sampleMsg "user" sampleParts "boom" rfl rfl rfl rfl rfl rfl rfl
      (by decide) rfl rfl
  exact ⟨by rw [h.1]; rfl, h.1⟩

/-- C7: the agent's generate operation is never reached by a request
that fails validation: for any request rejected by the envelope, method,
message-presence or message-shape checks, the handler's answer is
identical whatever the registered agent does (and likewise for
unparseable bodies), so no agent-side effect can occur on those paths. -/
theorem c7_no_agent_call_on_invalid (uuid : Nat → String)
    (now aid : String) (req : RpcRequest) (g1 g2 : AgentFn)
    (h : requestAccepted req = false) :
    handleA2A (fun s => if s = aid then some g1 else none) uuid now aid
        (.ok req)
      = handleA2A (fun s => if s = aid then some g2 else none) uuid now aid
        (.ok req) ∧
    (∀ e, handleA2A (fun s => if s = aid then some g1 else none) uuid now
        aid (.error e)
      = handleA2A (fun s => if s = aid then some g2 else none) uuid now aid
        (.error e)) := by
  refine ⟨?_, fun e => rfl⟩
  simp only [handleA2A, eq_self_iff_true, if_true]
  split
  · rfl
  split
  · rfl
  split
  · rfl
  split
  · split
    · rfl
    · exfalso
      simp_all [requestAccepted, strTruthy]
  · rfl

theorem c7_no_agent_call_on_invalid_witness :
    handleA2A (fun s => if s = "planner" then some sampleAgent else none)
        sampleUuid "T0" "planner" (.ok badReq)
      = handleA2A (fun s => if s = "planner" then some failAgent else none)
        sampleUuid "T0" "planner" (.ok badReq) := by
  exact (c7_no_agent_call_on_invalid sampleUuid "T0" "planner" badReq
    sampleAgent failAgent rfl).1

/-- C8: the handler is total and every branch returns one well-formed
JSON-RPC response: the body's `jsonrpc` is `"2.0"`, the HTTP status is
one of 200/400/404/500, and the rendered JSON body is an object with a
`jsonrpc` field equal to `"2.0"`, an `id` field, and exactly one of
`result` / `error`. -/
theorem c8_always_wellformed_response (agents : String → Option AgentFn)
    (uuid : Nat → String) (now aid : String)
    (body : Except String RpcRequest) :
    (handleA2A agents uuid now aid body).body.jsonrpc = "2.0" ∧
    ((handleA2A agents uuid now aid body).status = 200 ∨
      (handleA2A agents uuid now aid body).status = 400 ∨
      (handleA2A agents uuid now aid body).status = 404 ∨
      (handleA2A agents uuid now aid body).status = 500) ∧
    wellFormedRpc
        (rpcResponseToJson (handleA2A agents uuid now aid body).body)
      = true := by
  rcases handleA2A_cases agents uuid now aid body with
    ⟨s, id, c, msg, d, heq, hs⟩ | ⟨id, m, role, parts, resp, heq⟩
  · rw [heq]
    refine ⟨rfl, ?_, wellFormedRpc_render _ rfl⟩
    rcases hs with h | h | h <;> simp [errorResponse, h]
  · rw [heq]
    exact ⟨rfl, Or.inl rfl, wellFormedRpc_render _ rfl⟩

/-- C9: every successful response has `result.status.state` equal to
`"completed"` and `result.kind` equal to `"task"`, and is emitted with
HTTP 200; no other task state is ever produced. -/
theorem c9_completed_task (agents : String → Option AgentFn)
    (uuid : Nat → String) (now aid : String)
    (body : Except String RpcRequest) (res : TaskResult)
    (h : (handleA2A agents uuid now aid body).body.outcome
      = .success res) :
    res.status.state = "completed" ∧ res.kind = "task" ∧
    (handleA2A agents uuid now aid body).status = 200 := by
  rcases handleA2A_cases agents uuid now aid body with
    ⟨s, id, c, msg, d, heq, hs⟩ | ⟨id, m, role, parts, resp, heq⟩
  · rw [heq] at h
    exact absurd h (by simp [errorResponse])
  · rw [heq] at h ⊢
    simp only [RpcOutcome.success.injEq] at h
    subst h
    exact ⟨by simp [mkResult], by simp [mkResult], rfl⟩

theorem c9_completed_task_witness :
    (mkResult sampleUuid "T0" sampleMsg "user" sampleParts
        sampleResp).status.state = "completed" := by
  exact (c9_completed_task sampleReg sampleUuid "T0" "planner"
    (.ok sampleReq)
    (mkResult sampleUuid "T0" sampleMsg "user" sampleParts sampleResp)
    rfl).1

/-- C10: a `taskId`, `contextId` or `messageId` supplied as the empty
string (present but falsy) is replaced by a freshly generated UUID from
the supply rather than echoed, while truthy supplied values are echoed
verbatim: the echo guarantee holds only for truthy identifiers. -/
theorem c10_falsy_ids_regenerated (agents : String → Option AgentFn)
    (uuid : Nat → String) (now aid : String) (req : RpcRequest)
    (gen : AgentFn) (m : InboundMessage) (role : String)
    (parts : List MsgPart) (resp : AgentResponse)
    (hag : agents aid = some gen)
    (hj : req.jsonrpc = "2.0") (hid : strTruthy req.id = true)
    (hmeth : req.method = "message/send")
    (hm : paramsMessage req.params = some m)
    (hkind : m.kind = "message") (hrole : m.role = some role)
    (hrole2 : role ≠ "") (hparts : m.parts = some parts)
    (hgen : gen ⟨role, mastraContent parts⟩ = .ok resp) :
    ∃ res : TaskResult,
      handleA2A agents uuid now aid (.ok req) =
        ⟨200, ⟨"2.0", req.id, .success res⟩⟩ ∧
      (m.taskId = some "" → res.id = uuid 0) ∧
      (m.contextId = some "" → ∃ k, k ≤ 1 ∧ res.contextId = uuid k) ∧
      (m.messageId = some "" →
        ∃ k, res.history.head?.map OutMessage.messageId
          = some (uuid k)) ∧
      (∀ t, m.taskId = some t → t ≠ "" → res.id = t) ∧
      (∀ c, m.contextId = some c → c ≠ "" → res.contextId = c) ∧
      (∀ i, m.messageId = some i → i ≠ "" →
        res.history.head?.map OutMessage.messageId = some i) := by
  refine ⟨mkResult uuid now m role parts resp,
    handleA2A_success agents uuid now aid req gen m role parts resp hag hj
      hid hmeth hm hkind hrole hrole2 hparts hgen,
    ?_, ?_, ?_, ?_, ?_, ?_⟩
  · intro h
    simp [mkResult, jsOrFresh, h]
  · intro h
    refine ⟨(jsOrFresh m.taskId uuid 0).2, ?_, ?_⟩
    · rcases m.taskId with _ | t
      · simp [jsOrFresh]
      · by_cases ht : t = "" <;> simp [jsOrFresh, ht]
    · simp [mkResult, jsOrFresh, h]
  · intro h
    exact ⟨(jsOrFresh m.contextId uuid (jsOrFresh m.taskId uuid 0).2).2 + 1
        + (effectiveToolResults resp).length,
      by simp [mkResult, jsOrFresh, h]⟩
  · intro t ht hne
    simp [mkResult, jsOrFresh, ht, hne]
  · intro c hc hne
    simp [mkResult, jsOrFresh, hc, hne]
  · intro i hi hne
    simp [mkResult, jsOrFresh, hi, hne]

theorem c10_falsy_ids_regenerated_witness :
    (resultOf (handleA2A sampleReg sampleUuid "T0" "planner"
        (.ok allFalsyIdsReq))).map TaskResult.id = some (sampleUuid 0) := by
  obtain ⟨res, hshape, htask, hrest⟩ :=
    c10_falsy_ids_regenerated sampleReg sampleUuid "T0" "planner"
      allFalsyIdsReq sampleAgent allFalsyIdsMsg "user" sampleParts
      sampleResp rfl rfl rfl rfl rfl rfl rfl (by decide) rfl rfl
  rw [hshape]
  simp [resultOf]
  exact htask rfl
